import Mathlib

/-!
Shallow embedding of the `aicaller.api` module (files `src/aicaller/api/api.py`
and `src/aicaller/api/utils.py`): the request/output envelope, the three
provider adapters (OpenAI-compatible, Ollama, Google GenAI), the synchronous
driver `process_request_file`, the batch index `read_batch_file`, the batch
orchestration loops `batch_request_and_wait` and the polling helpers
`wait_for_batch_request`.

Provider network effects are modelled as explicit environments: a single call
consumes the head of a list of provider replies, a batch attempt consumes one
element of a list of attempt descriptions (submission outcome, observed poll
statuses, downloaded artifact rows).  Python exceptions are modelled with
`Except`; the distinction between provider `APIError` exceptions (the only ones
the batch loop's `except APIError` clause catches) and all other exceptions
(`ValueError`, `KeyError`, `ValidationError`, ...) is carried by the
`isAPIError` flag of `PyErr`.  Opaque provider payloads (request bodies sent to
the SDK, response bodies returned by it, JSON schemas) are abstracted as
strings; the claims under verification never inspect them.
-/

namespace AICaller

/-! ## Data model (request/output envelope, from `aicaller.api.base` usage) -/

/-- One content part of a chat message: plain text, or a non-text modality
given as a (mime type, file path) pair, as accepted by `convert_part`. -/
inductive MsgPart where
  | text (s : String)
  | blob (mimeType filePath : String)
deriving DecidableEq, Repr

/-- One chat message of a request body: a role string and a list of parts. -/
structure Message where
  role : String
  parts : List MsgPart
deriving DecidableEq, Repr

/-- Provider-agnostic request body: model name, ordered messages, opaque
passthrough options, optional response schema (opaque), and the `structured`
flag.  The pydantic `type` discriminator is excluded from every provider call
(`model_dump(exclude={"type"})`) and is therefore not modelled. -/
structure RequestBody where
  model : String
  messages : List Message
  options : List (String × String)
  format : Option String
  structured : Bool
deriving DecidableEq, Repr

/-- `APIRequest`: one inference call, identified by `custom_id`. -/
structure APIRequest where
  custom_id : String
  body : RequestBody
deriving DecidableEq, Repr

/-- `APIResponse*` (OpenAI/Ollama/GoogleGenAI variants): raw provider body
(opaque here) plus the `structured` flag inherited from the request. -/
structure APIRes where
  body : String
  structured : Bool
deriving DecidableEq, Repr

/-- `APIOutput`: the normalized result of processing one request. -/
structure APIOutput where
  custom_id : String
  response : Option APIRes
  error : Option String
deriving DecidableEq, Repr

/-- A Python exception as observed by the batch loop: `isAPIError` is true
exactly for provider `APIError`s (the only class the loop's
`except APIError` clause catches); `msg` is `str(e)` / `e.message`. -/
structure PyErr where
  isAPIError : Bool
  msg : String
deriving DecidableEq, Repr

/-- Does `pat` occur as a contiguous run inside `s` (as character lists)? -/
def charsContain (pat : List Char) : List Char → Bool
  | [] => pat.isEmpty
  | c :: rest => pat.isPrefixOf (c :: rest) || charsContain pat rest

/-- Substring test, the model of Python's `in` on strings. -/
def strContains (s pat : String) : Bool :=
  charsContain pat.toList s.toList

/-- The quota-exhaustion phrase tested by `batch_request_and_wait`:
`"Enqueued token limit reached for" in e.message`. -/
def quotaPhrase : String := "Enqueued token limit reached for"

/-- The batch loop's retry test: the exception is an `APIError` (otherwise the
`except APIError` clause does not catch it at all) and its message contains
the quota phrase. -/
def isQuotaError (e : PyErr) : Bool :=
  e.isAPIError && strContains e.msg quotaPhrase

/-- Exactly one of `response`/`error` is set on an output. -/
def exclusiveOutput (o : APIOutput) : Prop :=
  (o.response.isSome = true ∧ o.error = none) ∨
  (o.response = none ∧ o.error.isSome = true)

/-! ## OpenAI-compatible adapter: `OpenAPI.process_single_request`

The provider environment is the list of successive outcomes of
`client.chat.completions.create`; the loop consumes one outcome per
iteration.  `RateLimitError` is caught by the inner `except` (sleep one pool
interval, retry); any other `APIError` escapes the `while` loop and is caught
by the outer `except APIError`, which returns an error output.  The result is
`none` when the environment list is exhausted while the loop is still
retrying (the code would keep calling the provider). -/

inductive OpenAIReply where
  | success (body : String)
  | rateLimit
  | apiError (msg : String)
deriving DecidableEq, Repr

/-- The retry loop of `OpenAPI.process_single_request`; the `Nat` accumulates
the number of backoff sleeps performed. -/
def openaiSingleLoop (req : APIRequest) : List OpenAIReply → Nat → Option (Nat × APIOutput)
  | [], _ => none
  | .success b :: _, sleeps =>
    some (sleeps, ⟨req.custom_id, some ⟨b, req.body.structured⟩, none⟩)
  | .rateLimit :: rest, sleeps => openaiSingleLoop req rest (sleeps + 1)
  | .apiError m :: _, sleeps =>
    some (sleeps, ⟨req.custom_id, none, some m⟩)

/-- `OpenAPI.process_single_request`, returning the number of backoff sleeps
together with the output; `none` means the call never returned within the
given provider trace. -/
def openaiProcessSingleRequest (req : APIRequest) (replies : List OpenAIReply) :
    Option (Nat × APIOutput) :=
  openaiSingleLoop req replies 0

/-! ## Ollama adapter: `OllamaAPI.process_single_request`

No retry loop at all: one call to `client.chat`; any exception is caught by
`except Exception` and captured as the output's error. -/

inductive OllamaReply where
  | success (body : String)
  | exc (msg : String)
deriving DecidableEq, Repr

/-- `OllamaAPI.process_single_request`. -/
def ollamaProcessSingleRequest (req : APIRequest) : OllamaReply → APIOutput
  | .success b => ⟨req.custom_id, some ⟨b, req.body.structured⟩, none⟩
  | .exc m => ⟨req.custom_id, none, some m⟩

/-! ## Google GenAI helpers: `GoogleGenAIAPIMixin` (`aicaller/api/utils.py`) -/

/-- A `genai.types.Part` as produced by `convert_part`: either text, or bytes
read from a file (the file's contents are abstracted by its path).  The
`ValueError` branch of `convert_part` (a part that is neither a string nor a
2-element sequence) is unreachable here because `MsgPart` has exactly those
two shapes. -/
inductive GooglePart where
  | fromText (s : String)
  | fromBytes (mimeType filePath : String)
deriving DecidableEq, Repr

/-- `GoogleGenAIAPIMixin.convert_part`. -/
def convert_part : MsgPart → GooglePart
  | .text s => .fromText s
  | .blob mt fp => .fromBytes mt fp

/-- A `genai.types.Content` entry of the conversation history. -/
structure GoogleContent where
  role : String
  parts : List GooglePart
deriving DecidableEq, Repr

/-- `GoogleGenAIAPIMixin.get_conversion_history`: keeps only messages with
role in {user, assistant, model}, renames `assistant` to `model`, converts
every part. -/
def get_conversion_history (req : APIRequest) : List GoogleContent :=
  (req.body.messages.filter
      (fun m => m.role == "user" || m.role == "assistant" || m.role == "model")).map
    (fun m =>
      ⟨if m.role == "assistant" then "model" else m.role, m.parts.map convert_part⟩)

/-- A value stored in the `args` dict assembled by `get_config`. -/
inductive GConfigVal where
  | contentVal (text : String)
  | optionVal (s : String)
  | mimeVal (s : String)
  | schemaVal (s : String)
deriving DecidableEq, Repr

/-- Python dict assignment `d[k] = v`: replaces the value in place when the
key is present, appends otherwise (insertion order preserved). -/
def dictInsert (d : List (String × GConfigVal)) (k : String) (v : GConfigVal) :
    List (String × GConfigVal) :=
  if d.any (fun p => p.1 == k) then
    d.map (fun p => if p.1 == k then (k, v) else p)
  else d ++ [(k, v)]

/-- The `ValueError` message raised by `get_config` on a multi-part system
message. -/
def sysMsgErr : String := "Google GenAI API supports only single-part system messages."

/-- The first message with role `system`, the one `get_config`'s loop stops
at (`break` after the first match). -/
def firstSystemMessage (req : APIRequest) : Option Message :=
  req.body.messages.find? (fun m => m.role == "system")

/-- The system-message scan at the top of `get_config`: the initial `args`
dict, or the exception the scan raises.  Besides the documented `ValueError`
for a multi-part system message, the zero-part and non-text first-part edge
cases also raise in Python (`IndexError` / pydantic `ValidationError` on
`Part(text=...)`); their exact messages are interpreter-generated and
abstracted here. -/
def getConfigSystemArgs (req : APIRequest) : Except String (List (String × GConfigVal)) :=
  match firstSystemMessage req with
  | none => .ok []
  | some m =>
    if m.parts.length > 1 then
      .error sysMsgErr
    else
      match m.parts.head? with
      | none => .error "list index out of range"
      | some (.text t) => .ok [("system_instruction", GConfigVal.contentVal t)]
      | some (.blob _ _) => .error "Input should be a valid string"

/-- `GoogleGenAIAPIMixin.get_config`.  `Except.ok none` models the
`len(args) == 0` early return of Python `None`. -/
def get_config (req : APIRequest) : Except String (Option (List (String × GConfigVal))) :=
  match getConfigSystemArgs req with
  | .error m => .error m
  | .ok args0 =>
    let args1 := req.body.options.foldl
      (fun d kv => dictInsert d kv.1 (GConfigVal.optionVal kv.2)) args0
    let args2 :=
      match req.body.format with
      | none => args1
      | some schema =>
        dictInsert (dictInsert args1 "response_mime_type" (.mimeVal "application/json"))
          "response_json_schema" (.schemaVal schema)
    if args2.isEmpty then .ok none else .ok (some args2)

/-! ## Google GenAI adapter: `GoogleGenAIAPI.process_single_request`

The inner `except genai_errors.APIError` clause sleeps and retries when
`e.code == 503`; for any other code it neither re-raises nor sleeps, so the
`while` loop immediately calls the provider again.  Exceptions that are not
`genai_errors.APIError` (e.g. the `ValueError` from `get_config`) reach the
outer `except Exception`, which returns an error output. -/

inductive GoogleReply where
  | success (body : String)
  | apiError (code : Nat) (msg : String)
  | otherExc (msg : String)
deriving DecidableEq, Repr

/-- The retry loop of `GoogleGenAIAPI.process_single_request`; the `Nat`
accumulates backoff sleeps (performed only for code-503 errors). -/
def googleSingleLoop (req : APIRequest) : List GoogleReply → Nat → Option (Nat × APIOutput)
  | [], _ => none
  | .success b :: _, sleeps =>
    some (sleeps, ⟨req.custom_id, some ⟨b, req.body.structured⟩, none⟩)
  | .apiError c _ :: rest, sleeps =>
    if c == 503 then googleSingleLoop req rest (sleeps + 1)
    else googleSingleLoop req rest sleeps
  | .otherExc m :: _, sleeps =>
    some (sleeps, ⟨req.custom_id, none, some m⟩)

/-- `GoogleGenAIAPI.process_single_request`: the call arguments
(`get_conversion_history`, `get_config`) are evaluated before the network
call of the first iteration, so a config error is captured by the outer
`except Exception` with no sleep, regardless of the provider trace. -/
def googleProcessSingleRequest (req : APIRequest) (replies : List GoogleReply) :
    Option (Nat × APIOutput) :=
  match get_config req with
  | .error m => some (0, ⟨req.custom_id, none, some m⟩)
  | .ok _ => googleSingleLoop req replies 0

/-- Is this reply a `genai_errors.APIError` (of any code)? -/
def GoogleReply.isApiErr : GoogleReply → Bool
  | .apiError _ _ => true
  | _ => false

/-- How many replies in the list are `APIError`s with code 503 — i.e. how
many backoff sleeps the Google single-request loop performs while consuming
them. -/
def count503 (l : List GoogleReply) : Nat :=
  l.countP (fun r =>
    match r with
    | .apiError c _ => c == 503
    | _ => false)

/-! ## Synchronous driver: `API.process_request_file`

The request source is a list of lines as consumed lazily by
`read_request_file`: each line either parses to an `APIRequest` or raises a
`ValidationError` when the generator is advanced.  The driver is
parameterized by the (total) per-item call `f`, standing for the adapter's
`process_single_request`.  The result is the ordered trace of observable
events (pacing sleeps and yielded outputs) together with the exception, if
any, that halted iteration. -/

inductive SourceLine where
  | ok (r : APIRequest)
  | malformed (msg : String)
deriving DecidableEq, Repr

inductive DrvEvent where
  | sleep
  | out (o : APIOutput)
deriving DecidableEq, Repr

/-- Python `skip is not None and record.custom_id in skip`. -/
def inSkip (skip : Option (List String)) (cid : String) : Bool :=
  match skip with
  | none => false
  | some l => l.contains cid

/-- The loop of `process_request_file`; `i` is the `enumerate` index over the
source (counting skipped records too). -/
def processRequestFileGo (f : APIRequest → APIOutput) (interval : Nat)
    (skip : Option (List String)) : Nat → List SourceLine → List DrvEvent × Option PyErr
  | _, [] => ([], none)
  | _, .malformed m :: _ => ([], some ⟨false, m⟩)
  | i, .ok r :: rest =>
    if inSkip skip r.custom_id then processRequestFileGo f interval skip (i + 1) rest
    else
      let pre : List DrvEvent := if 0 < i ∧ 0 < interval then [.sleep] else []
      let res := processRequestFileGo f interval skip (i + 1) rest
      (pre ++ .out (f r) :: res.1, res.2)

/-- `API.process_request_file`. -/
def process_request_file (f : APIRequest → APIOutput) (interval : Nat)
    (skip : Option (List String)) (lines : List SourceLine) :
    List DrvEvent × Option PyErr :=
  processRequestFileGo f interval skip 0 lines

/-- The outputs yielded along a driver event trace, in order. -/
def outputsOf : List DrvEvent → List APIOutput
  | [] => []
  | .sleep :: rest => outputsOf rest
  | .out o :: rest => o :: outputsOf rest

/-! ## Submitted-Request Index: `read_batch_file`

`OpenAPI.read_batch_file` and `GoogleGenAIAPI.read_batch_file` are
identical: scan the source, reject duplicate `custom_id`s with a
`ValueError`, and return the insertion-ordered dict, modelled as an
association list with unique keys. -/

abbrev Index := List (String × APIRequest)

def indexKeys (idx : Index) : List String := idx.map Prod.fst

/-- Python dict lookup `samples[cid]`, as an `Option`. -/
def indexLookup (idx : Index) (cid : String) : Option APIRequest :=
  (idx.find? (fun p => p.1 == cid)).map Prod.snd

/-- The `ValueError` message for a duplicate id. -/
def dupMsg (cid : String) : String := "Duplicate custom_id found: " ++ cid

/-- The scan of `read_batch_file`, with the dict built so far. -/
def readBatchFileGo : Index → List SourceLine → Except PyErr Index
  | acc, [] => .ok acc
  | _, .malformed m :: _ => .error ⟨false, m⟩
  | acc, .ok r :: rest =>
    if (indexKeys acc).contains r.custom_id then .error ⟨false, dupMsg r.custom_id⟩
    else readBatchFileGo (acc ++ [(r.custom_id, r)]) rest

/-- `read_batch_file` (both adapters). -/
def read_batch_file (lines : List SourceLine) : Except PyErr Index :=
  readBatchFileGo [] lines

/-! ## Batch result decoding

The decode passes of `batch_request_and_wait` over the downloaded artifact,
one result row per line after `json.loads`.  A row that fails JSON parsing or
lacks a required key is `malformed` (the exception aborts the decode; it is
neither an `APIError` nor, for Google, a `ValidationError`). -/

inductive OpenAIResultLine where
  | row (custom_id : String) (body : String)
  | malformed (msg : String)
deriving DecidableEq, Repr

/-- The decode loop of `OpenAPI.batch_request_and_wait` (after the artifact
download): every row is rebuilt as a success output whose `structured` flag
is read from `batch_samples[record["custom_id"]]` — a lookup that raises
`KeyError` when the id is not in the index, aborting the decode. -/
def openaiDecodeResults (idx : Index) : List OpenAIResultLine → Except PyErr (List APIOutput)
  | [] => .ok []
  | .malformed m :: _ => .error ⟨false, m⟩
  | .row cid b :: rest =>
    match indexLookup idx cid with
    | none => .error ⟨false, "KeyError: " ++ cid⟩
    | some req =>
      match openaiDecodeResults idx rest with
      | .error e => .error e
      | .ok tail => .ok (⟨cid, some ⟨b, req.body.structured⟩, none⟩ :: tail)

/-- Outcome of `GenerateContentResponse.model_validate` on a result row's
`response` field. -/
inductive GoogleResponseParse where
  | valid (body : String)
  | invalid (msg : String)
deriving DecidableEq, Repr

inductive GoogleResultLine where
  | errorRow (key : String) (msg : String)
  | responseRow (key : String) (resp : GoogleResponseParse)
  | malformed (msg : String)
deriving DecidableEq, Repr

/-- The decode loop of `GoogleGenAIAPI.batch_request_and_wait`: a row with an
inline `error` object becomes a per-row error output without consulting the
index; a row whose response fails validation becomes a per-row error output
(`except ValidationError`); a row with a valid response looks up
`batch_samples[key]`, raising `KeyError` (aborting the decode) when the key
is unknown. -/
def googleDecodeResults (idx : Index) : List GoogleResultLine → Except PyErr (List APIOutput)
  | [] => .ok []
  | .malformed m :: _ => .error ⟨false, m⟩
  | .errorRow key m :: rest =>
    match googleDecodeResults idx rest with
    | .error e => .error e
    | .ok tail => .ok (⟨key, none, some m⟩ :: tail)
  | .responseRow key (.invalid m) :: rest =>
    match googleDecodeResults idx rest with
    | .error e => .error e
    | .ok tail =>
      .ok (⟨key, none, some ("Failed to parse response for key " ++ key ++ ": " ++ m)⟩ :: tail)
  | .responseRow key (.valid b) :: rest =>
    match indexLookup idx key with
    | none => .error ⟨false, "KeyError: " ++ key⟩
    | some req =>
      match googleDecodeResults idx rest with
      | .error e => .error e
      | .ok tail => .ok (⟨key, some ⟨b, req.body.structured⟩, none⟩ :: tail)

/-! ## Google batch-file conversion: `GoogleGenAIAPI.convert_batch_file`

Re-reads the source, enforces a single model per batch, converts each record
with `get_conversion_history` / `get_config`.  Both the mixed-model check and
a `get_config` failure raise `ValueError` before anything is uploaded. -/

def mixedModelMsg (found expected : String) : String :=
  "All requests in a batch must use the same model. Found " ++ found ++
    ", expected " ++ expected ++ "."

/-- One line of the converted Google batch artifact: `key`, converted
contents, `generation_config` (the config dump minus `system_instruction`),
and the separately emitted `system_instruction`. -/
structure GoogleBatchItem where
  key : String
  contents : List GoogleContent
  generationConfig : Option (List (String × GConfigVal))
  systemInstruction : Option String
deriving DecidableEq, Repr

/-- The `first_model` bookkeeping of `convert_batch_file`: accept the first
record's model, reject any later record with a different one. -/
def googleModelCheck (fm : Option String) (model : String) : Except PyErr String :=
  match fm with
  | none => .ok model
  | some m0 =>
    if model != m0 then .error ⟨false, mixedModelMsg model m0⟩
    else .ok m0

/-- The converted batch item for one record, given its (already checked)
config. -/
def googleBatchItemOf (r : APIRequest) (cfg : Option (List (String × GConfigVal))) :
    GoogleBatchItem :=
  ⟨r.custom_id, get_conversion_history r,
    cfg.map (fun args => args.filter (fun p => p.1 != "system_instruction")),
    cfg.bind (fun args =>
      (args.find? (fun p => p.1 == "system_instruction")).bind (fun p =>
        match p.2 with
        | .contentVal t => some t
        | _ => none))⟩

/-- The loop of `convert_batch_file`, carrying `first_model`. -/
def googleConvertGo : Option String → List SourceLine → Except PyErr (List GoogleBatchItem)
  | _, [] => .ok []
  | _, .malformed m :: _ => .error ⟨false, m⟩
  | fm, .ok r :: rest =>
    match googleModelCheck fm r.body.model with
    | .error e => .error e
    | .ok fm' =>
      match get_config r with
      | .error cm => .error ⟨false, cm⟩
      | .ok cfg =>
        match googleConvertGo (some fm') rest with
        | .error e => .error e
        | .ok tail => .ok (googleBatchItemOf r cfg :: tail)

/-- `GoogleGenAIAPI.convert_batch_file` (the returned model name is not
needed by the claims; the items are). -/
def google_convert_batch_file (lines : List SourceLine) :
    Except PyErr (List GoogleBatchItem) :=
  googleConvertGo none lines

/-! ## Polling: `wait_for_batch_request`

The poll environment is the list of successive statuses returned by the
provider's job-status query; the downloaded artifact (used only when the job
succeeds) is part of the attempt environment.  The result pairs the number of
poll-interval sleeps with the outcome; `none` means the status list ran out
while the job was still non-terminal (the code would keep polling). -/

def terminalFailStatuses : List String := ["failed", "canceled", "expired"]

/-- `OpenAPI.wait_for_batch_request`: poll until `completed` or a terminal
failure status; on `completed`, download and return the artifact; otherwise
raise `APIError("Batch request failed with status: " + status)`. -/
def openaiWaitGo (artifact : List OpenAIResultLine) :
    List String → Nat → Option (Nat × Except PyErr (List OpenAIResultLine))
  | [], _ => none
  | st :: rest, sleeps =>
    if st == "completed" then some (sleeps, .ok artifact)
    else if terminalFailStatuses.contains st then
      some (sleeps, .error ⟨true, "Batch request failed with status: " ++ st⟩)
    else openaiWaitGo artifact rest (sleeps + 1)

def googleCompletedStates : List String :=
  ["JOB_STATE_SUCCEEDED", "JOB_STATE_FAILED", "JOB_STATE_CANCELLED", "JOB_STATE_EXPIRED"]

/-- `GoogleGenAIAPI.wait_for_batch_request`: poll until the state is in
`completed_states`; on `JOB_STATE_SUCCEEDED` with a download destination,
return the artifact (raise when the destination is missing); on any other
terminal state raise `APIError("Batch request failed with state: " + name)`. -/
def googleWaitGo (hasDest : Bool) (artifact : List GoogleResultLine) :
    List String → Nat → Option (Nat × Except PyErr (List GoogleResultLine))
  | [], _ => none
  | st :: rest, sleeps =>
    if googleCompletedStates.contains st then
      if st == "JOB_STATE_SUCCEEDED" then
        if hasDest then some (sleeps, .ok artifact)
        else some (sleeps, .error ⟨true, "Batch job succeeded but no output file found."⟩)
      else some (sleeps, .error ⟨true, "Batch request failed with state: " ++ st⟩)
    else googleWaitGo hasDest artifact rest (sleeps + 1)

/-! ## Batch orchestrator: `batch_request_and_wait`

One `Attempt` is the provider-side behaviour of one submit-poll-fetch cycle:
the outcome of the upload/create calls, the statuses observed while polling,
and the artifact rows downloaded on success.  The `while True` loop consumes
one attempt per cycle; `none` models the runs that never return within the
given environment (exhausted attempts, or a poll that never turns terminal).
Counters record how often the index was built (`read_batch_file` calls), how
often `batch_request` was entered, and how many sleeps happened. -/

structure BatchCounters where
  builds : Nat
  submits : Nat
  sleeps : Nat
deriving DecidableEq, Repr

structure OpenAIAttempt where
  submit : Except String Unit
  polls : List String
  artifact : List OpenAIResultLine
deriving Repr

/-- `OpenAPI.batch_request_and_wait`: each cycle rebuilds the index, submits,
waits, decodes; only an `APIError` whose message contains the quota phrase
triggers a sleep and a fresh cycle — every other exception propagates
(`ValueError`/`KeyError` are not caught at all, non-quota `APIError`s are
re-raised). -/
def openaiBatchLoopGo (lines : List SourceLine) :
    List OpenAIAttempt → BatchCounters → Option (Except PyErr (List APIOutput) × BatchCounters)
  | [], _ => none
  | att :: rest, c0 =>
    let c1 : BatchCounters := { c0 with builds := c0.builds + 1 }
    match read_batch_file lines with
    | .error e => some (.error e, c1)
    | .ok idx =>
      -- batch_request: convert_batch_file re-reads the (already validated)
      -- source, then files.create / batches.create answer with att.submit
      let c2 : BatchCounters := { c1 with submits := c1.submits + 1 }
      match att.submit with
      | .error m =>
        let e : PyErr := ⟨true, m⟩
        if isQuotaError e then
          openaiBatchLoopGo lines rest { c2 with sleeps := c2.sleeps + 1 }
        else some (.error e, c2)
      | .ok _ =>
        match openaiWaitGo att.artifact att.polls 0 with
        | none => none
        | some (ns, .error e) =>
          let c3 : BatchCounters := { c2 with sleeps := c2.sleeps + ns }
          if isQuotaError e then
            openaiBatchLoopGo lines rest { c3 with sleeps := c3.sleeps + 1 }
          else some (.error e, c3)
        | some (ns, .ok art) =>
          let c3 : BatchCounters := { c2 with sleeps := c2.sleeps + ns }
          match openaiDecodeResults idx art with
          | .error e => some (.error e, c3)
          | .ok outs => some (.ok outs, c3)

/-- `OpenAPI.batch_request_and_wait`, from fresh counters. -/
def openai_batch_request_and_wait (lines : List SourceLine)
    (attempts : List OpenAIAttempt) :
    Option (Except PyErr (List APIOutput) × BatchCounters) :=
  openaiBatchLoopGo lines attempts ⟨0, 0, 0⟩

structure GoogleAttempt where
  submit : Except String Unit
  polls : List String
  hasDest : Bool
  artifact : List GoogleResultLine
deriving Repr

/-- `GoogleGenAIAPI.batch_request_and_wait`: same cycle as the OpenAI loop,
with the conversion step (which can raise `ValueError`, uncaught) before the
upload. -/
def googleBatchLoopGo (lines : List SourceLine) :
    List GoogleAttempt → BatchCounters → Option (Except PyErr (List APIOutput) × BatchCounters)
  | [], _ => none
  | att :: rest, c0 =>
    let c1 : BatchCounters := { c0 with builds := c0.builds + 1 }
    match read_batch_file lines with
    | .error e => some (.error e, c1)
    | .ok idx =>
      let c2 : BatchCounters := { c1 with submits := c1.submits + 1 }
      match google_convert_batch_file lines with
      | .error e => some (.error e, c2)
      | .ok _ =>
        match att.submit with
        | .error m =>
          let e : PyErr := ⟨true, m⟩
          if isQuotaError e then
            googleBatchLoopGo lines rest { c2 with sleeps := c2.sleeps + 1 }
          else some (.error e, c2)
        | .ok _ =>
          match googleWaitGo att.hasDest att.artifact att.polls 0 with
          | none => none
          | some (ns, .error e) =>
            let c3 : BatchCounters := { c2 with sleeps := c2.sleeps + ns }
            if isQuotaError e then
              googleBatchLoopGo lines rest { c3 with sleeps := c3.sleeps + 1 }
            else some (.error e, c3)
          | some (ns, .ok art) =>
            let c3 : BatchCounters := { c2 with sleeps := c2.sleeps + ns }
            match googleDecodeResults idx art with
            | .error e => some (.error e, c3)
            | .ok outs => some (.ok outs, c3)

/-- `GoogleGenAIAPI.batch_request_and_wait`, from fresh counters. -/
def google_batch_request_and_wait (lines : List SourceLine)
    (attempts : List GoogleAttempt) :
    Option (Except PyErr (List APIOutput) × BatchCounters) :=
  googleBatchLoopGo lines attempts ⟨0, 0, 0⟩

/-! ## Concrete sample inputs (used by witnesses and counterexamples) -/

/-- A minimal request body: model `"m"`, no messages, no options, no schema,
`structured = False`. -/
def sampleBody : RequestBody := ⟨"m", [], [], none, false⟩

/-- A minimal request with the given `custom_id`. -/
def sampleReq (cid : String) : APIRequest := ⟨cid, sampleBody⟩

/-- A request whose single-part system message precedes a two-part system
message: the `get_config` scan stops at the first one. -/
def twoSystemReq : APIRequest :=
  ⟨"g", ⟨"m", [⟨"system", [.text "a"]⟩, ⟨"system", [.text "b", .text "c"]⟩],
    [], none, false⟩⟩

/-- A request whose first (and only) system message has two parts. -/
def multiPartSysReq : APIRequest :=
  ⟨"s", ⟨"m", [⟨"system", [.text "x", .text "y"]⟩], [], none, false⟩⟩

/-! ## Theorems -/

/-- Every output the OpenAI single-request loop returns has exactly one of
`response`/`error` set. -/
theorem openaiSingleLoop_exclusive (req : APIRequest) :
    ∀ (replies : List OpenAIReply) (s s' : Nat) (out : APIOutput),
      openaiSingleLoop req replies s = some (s', out) → exclusiveOutput out := by
  intro replies
  induction replies with
  | nil => intro s s' out h; simp [openaiSingleLoop] at h
  | cons r rest ih =>
    intro s s' out h
    cases r with
    | success b =>
      simp only [openaiSingleLoop, Option.some.injEq, Prod.mk.injEq] at h
      obtain ⟨-, h2⟩ := h
      cases h2
      exact Or.inl ⟨rfl, rfl⟩
    | rateLimit => exact ih (s + 1) s' out h
    | apiError m =>
      simp only [openaiSingleLoop, Option.some.injEq, Prod.mk.injEq] at h
      obtain ⟨-, h2⟩ := h
      cases h2
      exact Or.inr ⟨rfl, rfl⟩

/-- Every output the Google single-request loop returns has exactly one of
`response`/`error` set. -/
theorem googleSingleLoop_exclusive (req : APIRequest) :
    ∀ (replies : List GoogleReply) (s s' : Nat) (out : APIOutput),
      googleSingleLoop req replies s = some (s', out) → exclusiveOutput out := by
  intro replies
  induction replies with
  | nil => intro s s' out h; simp [googleSingleLoop] at h
  | cons r rest ih =>
    intro s s' out h
    cases r with
    | success b =>
      simp only [googleSingleLoop, Option.some.injEq, Prod.mk.injEq] at h
      obtain ⟨-, h2⟩ := h
      cases h2
      exact Or.inl ⟨rfl, rfl⟩
    | apiError c m =>
      simp only [googleSingleLoop] at h
      by_cases hc : (c == 503) = true
      · rw [if_pos hc] at h
        exact ih (s + 1) s' out h
      · rw [if_neg hc] at h
        exact ih s s' out h
    | otherExc m =>
      simp only [googleSingleLoop, Option.some.injEq, Prod.mk.injEq] at h
      obtain ⟨-, h2⟩ := h
      cases h2
      exact Or.inr ⟨rfl, rfl⟩

/-- Every output the OpenAI batch decode returns has exactly one of
`response`/`error` set. -/
theorem openaiDecodeResults_exclusive (idx : Index) :
    ∀ (rows : List OpenAIResultLine) (outs : List APIOutput),
      openaiDecodeResults idx rows = .ok outs → ∀ o ∈ outs, exclusiveOutput o := by
  intro rows
  induction rows with
  | nil =>
    intro outs h o ho
    simp only [openaiDecodeResults, Except.ok.injEq] at h
    subst h
    simp at ho
  | cons r rest ih =>
    intro outs h o ho
    cases r with
    | malformed m => simp [openaiDecodeResults] at h
    | row cid b =>
      simp only [openaiDecodeResults] at h
      split at h
      · exact absurd h (by simp)
      · split at h
        · exact absurd h (by simp)
        · rename_i req hl tail hrec
          simp only [Except.ok.injEq] at h
          subst h
          rcases List.mem_cons.mp ho with h0 | h0
          · subst h0; exact Or.inl ⟨rfl, rfl⟩
          · exact ih tail hrec o h0

/-- Every output the Google batch decode returns has exactly one of
`response`/`error` set. -/
theorem googleDecodeResults_exclusive (idx : Index) :
    ∀ (rows : List GoogleResultLine) (outs : List APIOutput),
      googleDecodeResults idx rows = .ok outs → ∀ o ∈ outs, exclusiveOutput o := by
  intro rows
  induction rows with
  | nil =>
    intro outs h o ho
    simp only [googleDecodeResults, Except.ok.injEq] at h
    subst h
    simp at ho
  | cons r rest ih =>
    intro outs h o ho
    cases r with
    | malformed m => simp [googleDecodeResults] at h
    | errorRow key m =>
      simp only [googleDecodeResults] at h
      split at h
      · exact absurd h (by simp)
      · rename_i tail hrec
        simp only [Except.ok.injEq] at h
        subst h
        rcases List.mem_cons.mp ho with h0 | h0
        · subst h0; exact Or.inr ⟨rfl, rfl⟩
        · exact ih tail hrec o h0
    | responseRow key resp =>
      cases resp with
      | invalid m =>
        simp only [googleDecodeResults] at h
        split at h
        · exact absurd h (by simp)
        · rename_i tail hrec
          simp only [Except.ok.injEq] at h
          subst h
          rcases List.mem_cons.mp ho with h0 | h0
          · subst h0; exact Or.inr ⟨rfl, rfl⟩
          · exact ih tail hrec o h0
      | valid b =>
        simp only [googleDecodeResults] at h
        split at h
        · exact absurd h (by simp)
        · split at h
          · exact absurd h (by simp)
          · rename_i req hl tail hrec
            simp only [Except.ok.injEq] at h
            subst h
            rcases List.mem_cons.mp ho with h0 | h0
            · subst h0; exact Or.inl ⟨rfl, rfl⟩
            · exact ih tail hrec o h0

/-- Claim C1: for every Request processed by any adapter path (single-call or
batch decode), the resulting Output has exactly one of `response`/`error`
set: `response` is non-null and `error` is null on success, `error` is
non-null and `response` is null on failure; never both, never neither. -/
theorem C1_output_exactly_one_of_response_error :
    (∀ (req : APIRequest) (replies : List OpenAIReply) (s : Nat) (out : APIOutput),
        openaiProcessSingleRequest req replies = some (s, out) → exclusiveOutput out) ∧
    (∀ (req : APIRequest) (reply : OllamaReply),
        exclusiveOutput (ollamaProcessSingleRequest req reply)) ∧
    (∀ (req : APIRequest) (replies : List GoogleReply) (s : Nat) (out : APIOutput),
        googleProcessSingleRequest req replies = some (s, out) → exclusiveOutput out) ∧
    (∀ (idx : Index) (rows : List OpenAIResultLine) (outs : List APIOutput),
        openaiDecodeResults idx rows = .ok outs → ∀ o ∈ outs, exclusiveOutput o) ∧
    (∀ (idx : Index) (rows : List GoogleResultLine) (outs : List APIOutput),
        googleDecodeResults idx rows = .ok outs → ∀ o ∈ outs, exclusiveOutput o) := by
  refine ⟨?_, ?_, ?_, ?_, ?_⟩
  · intro req replies s out h
    exact openaiSingleLoop_exclusive req replies 0 s out h
  · intro req reply
    cases reply with
    | success b => exact Or.inl ⟨rfl, rfl⟩
    | exc m => exact Or.inr ⟨rfl, rfl⟩
  · intro req replies s out h
    unfold googleProcessSingleRequest at h
    split at h
    · simp only [Option.some.injEq, Prod.mk.injEq] at h
      obtain ⟨-, h2⟩ := h
      cases h2
      exact Or.inr ⟨rfl, rfl⟩
    · exact googleSingleLoop_exclusive req replies 0 s out h
  · exact openaiDecodeResults_exclusive
  · exact googleDecodeResults_exclusive

/-- Witness for C1: each conjunct applied at a concrete input. -/
theorem C1_output_exactly_one_of_response_error_witness :
    exclusiveOutput ⟨"a", none, some "boom"⟩ ∧
    exclusiveOutput ⟨"b", some ⟨"B", false⟩, none⟩ := by
  constructor
  · exact C1_output_exactly_one_of_response_error.1
      ⟨"a", ⟨"m", [], [], none, false⟩⟩ [.rateLimit, .apiError "boom"] 1
      ⟨"a", none, some "boom"⟩ (by rfl)
  · exact C1_output_exactly_one_of_response_error.2.2.2.1
      [("b", ⟨"b", ⟨"m", [], [], none, false⟩⟩)] [.row "b" "B"]
      [⟨"b", some ⟨"B", false⟩, none⟩] (by rfl)
      ⟨"b", some ⟨"B", false⟩, none⟩ (by simp)

/-- Scanning well-formed records whose ids are fresh for the accumulated dict
appends one entry per record, in order. -/
theorem readBatchFileGo_ok (src : List APIRequest) :
    ∀ acc : Index,
      (indexKeys acc ++ src.map APIRequest.custom_id).Nodup →
      readBatchFileGo acc (src.map SourceLine.ok) =
        .ok (acc ++ src.map (fun r => (r.custom_id, r))) := by
  induction src with
  | nil => intro acc h; simp [readBatchFileGo]
  | cons r rest ih =>
    intro acc h
    simp only [List.map_cons] at h
    have hmem : r.custom_id ∉ indexKeys acc := by
      rcases List.nodup_append.mp h with ⟨-, -, hdisj⟩
      intro hin
      exact hdisj hin (by simp)
    have hc : (indexKeys acc).contains r.custom_id = false := by
      rw [Bool.eq_false_iff]
      intro hcon
      exact hmem (List.elem_iff.mp hcon)
    simp only [List.map_cons, readBatchFileGo, hc, Bool.false_eq_true, if_false]
    rw [ih (acc ++ [(r.custom_id, r)]) (by simpa [indexKeys, List.append_assoc] using h)]
    simp

/-- Scanning well-formed records with a repeated id fails with the
`ValueError` naming an id that occurs at least twice. -/
theorem readBatchFileGo_dup (src : List APIRequest) :
    ∀ acc : Index, (indexKeys acc).Nodup →
      ¬ (indexKeys acc ++ src.map APIRequest.custom_id).Nodup →
      ∃ d, 2 ≤ (indexKeys acc ++ src.map APIRequest.custom_id).count d ∧
        readBatchFileGo acc (src.map SourceLine.ok) = .error ⟨false, dupMsg d⟩ := by
  induction src with
  | nil => intro acc hk hnd; exact absurd (by simpa using hk) hnd
  | cons r rest ih =>
    intro acc hk hnd
    simp only [List.map_cons] at hnd ⊢
    by_cases hc : (indexKeys acc).contains r.custom_id = true
    · refine ⟨r.custom_id, ?_, ?_⟩
      · have hm : r.custom_id ∈ indexKeys acc := List.elem_iff.mp hc
        rw [List.count_append, List.count_cons_self]
        have h1 : 1 ≤ (indexKeys acc).count r.custom_id := List.one_le_count_iff.mpr hm
        omega
      · simp only [readBatchFileGo]
        rw [if_pos hc]
    · have hm : r.custom_id ∉ indexKeys acc := fun hmm => hc (List.elem_iff.mpr hmm)
      have hk' : (indexKeys (acc ++ [(r.custom_id, r)])).Nodup := by
        simp only [indexKeys, List.map_append, List.map_cons, List.map_nil]
        exact List.nodup_append.mpr
          ⟨hk, List.nodup_singleton _, by
            intro x hx hx1
            simp only [List.mem_singleton] at hx1
            exact hm (hx1 ▸ hx)⟩
      have hnd' :
          ¬ (indexKeys (acc ++ [(r.custom_id, r)]) ++ rest.map APIRequest.custom_id).Nodup := by
        simpa [indexKeys, List.append_assoc] using hnd
      obtain ⟨d, hcnt, herr⟩ := ih (acc ++ [(r.custom_id, r)]) hk' hnd'
      refine ⟨d, ?_, ?_⟩
      · simpa [indexKeys, List.append_assoc] using hcnt
      · simp only [readBatchFileGo]
        rw [if_neg hc]
        exact herr

/-- Claim C4: building the Submitted-Request Index over input with two
records sharing a `custom_id` fails fast with a `ValueError` naming a
duplicated id; over input with pairwise-distinct ids it succeeds with
exactly one entry per record, keyed by `custom_id` (so
`len(index) == len(input)`). -/
theorem C4_index_duplicate_rejection (src : List APIRequest) :
    ((src.map APIRequest.custom_id).Nodup →
      read_batch_file (src.map SourceLine.ok) =
          .ok (src.map (fun r => (r.custom_id, r))) ∧
        (src.map (fun r => (r.custom_id, r))).length = src.length) ∧
    (¬ (src.map APIRequest.custom_id).Nodup →
      ∃ d, 2 ≤ (src.map APIRequest.custom_id).count d ∧
        read_batch_file (src.map SourceLine.ok) = .error ⟨false, dupMsg d⟩) := by
  constructor
  · intro hnd
    refine ⟨?_, by simp⟩
    have := readBatchFileGo_ok src [] (by simpa [indexKeys] using hnd)
    simpa [read_batch_file] using this
  · intro hnd
    have := readBatchFileGo_dup src [] (by simp [indexKeys])
      (by simpa [indexKeys] using hnd)
    simpa [read_batch_file, indexKeys] using this

/-- Witness for C4: a distinct-id source builds the two-entry index; a source
repeating id `"a"` is rejected with the duplicate-naming error. -/
theorem C4_index_duplicate_rejection_witness :
    (read_batch_file [SourceLine.ok ⟨"a", ⟨"m", [], [], none, false⟩⟩,
        SourceLine.ok ⟨"b", ⟨"m", [], [], none, false⟩⟩] =
      .ok [("a", ⟨"a", ⟨"m", [], [], none, false⟩⟩), ("b", ⟨"b", ⟨"m", [], [], none, false⟩⟩)]) ∧
    (∃ d, 2 ≤ (["a", "b", "a"] : List String).count d ∧
      read_batch_file [SourceLine.ok ⟨"a", ⟨"m", [], [], none, false⟩⟩,
          SourceLine.ok ⟨"b", ⟨"m", [], [], none, false⟩⟩,
          SourceLine.ok ⟨"a", ⟨"m2", [], [], none, true⟩⟩] =
        .error ⟨false, dupMsg d⟩) := by
  constructor
  · exact ((C4_index_duplicate_rejection
      [⟨"a", ⟨"m", [], [], none, false⟩⟩, ⟨"b", ⟨"m", [], [], none, false⟩⟩]).1
      (by decide)).1
  · exact (C4_index_duplicate_rejection
      [⟨"a", ⟨"m", [], [], none, false⟩⟩, ⟨"b", ⟨"m", [], [], none, false⟩⟩,
        ⟨"a", ⟨"m2", [], [], none, true⟩⟩]).2 (by decide)

/-- Counterexample to claim C2 as stated: with the index holding only id
`"a"`, an artifact whose first row names the unknown id `"b"` makes the
OpenAI decode raise `KeyError` — the whole decode aborts and the following
(well-known) row `"a"` is never produced, instead of yielding a per-row
error Output for `"b"` and continuing. -/
theorem C2_unknown_id_counterexample :
    openaiDecodeResults [("a", sampleReq "a")]
        [.row "b" "B", .row "a" "A"] =
      .error ⟨false, "KeyError: b"⟩ := by rfl

/-- Claim C2 amended: a result row carrying a response body whose `custom_id`
is absent from the index makes the decode raise `KeyError`, aborting the
whole batch decode, in both adapters; only Google rows carrying an inline
provider `error` object (which never consult the index) and Google rows
whose response fails schema validation degrade to a per-row error Output
with decode continuing. -/
theorem C2_unknown_id_aborts_decode :
    (∀ (idx : Index) (cid b : String) (rest : List OpenAIResultLine),
        indexLookup idx cid = none →
        openaiDecodeResults idx (.row cid b :: rest) =
          .error ⟨false, "KeyError: " ++ cid⟩) ∧
    (∀ (idx : Index) (key b : String) (rest : List GoogleResultLine),
        indexLookup idx key = none →
        googleDecodeResults idx (.responseRow key (.valid b) :: rest) =
          .error ⟨false, "KeyError: " ++ key⟩) ∧
    (∀ (idx : Index) (key m : String) (rest : List GoogleResultLine) (outs : List APIOutput),
        googleDecodeResults idx rest = .ok outs →
        googleDecodeResults idx (.errorRow key m :: rest) =
          .ok (⟨key, none, some m⟩ :: outs)) ∧
    (∀ (idx : Index) (key m : String) (rest : List GoogleResultLine) (outs : List APIOutput),
        googleDecodeResults idx rest = .ok outs →
        googleDecodeResults idx (.responseRow key (.invalid m) :: rest) =
          .ok (⟨key, none,
            some ("Failed to parse response for key " ++ key ++ ": " ++ m)⟩ :: outs)) := by
  refine ⟨?_, ?_, ?_, ?_⟩
  · intro idx cid b rest h
    simp only [openaiDecodeResults, h]
  · intro idx key b rest h
    simp only [googleDecodeResults, h]
  · intro idx key m rest outs h
    simp only [googleDecodeResults, h]
  · intro idx key m rest outs h
    simp only [googleDecodeResults, h]

/-- Witness for amended C2: an unknown-id response row aborts the Google
decode; an unknown-id inline-error row and a validation-failure row are
per-row errors with decode continuing. -/
theorem C2_unknown_id_aborts_decode_witness :
    (googleDecodeResults [("a", sampleReq "a")] [.responseRow "b" (.valid "B")] =
      .error ⟨false, "KeyError: b"⟩) ∧
    (googleDecodeResults [("a", sampleReq "a")]
        [.errorRow "zz" "boom", .responseRow "a" (.valid "A")] =
      .ok [⟨"zz", none, some "boom"⟩, ⟨"a", some ⟨"A", false⟩, none⟩]) ∧
    (googleDecodeResults [("a", sampleReq "a")] [.responseRow "c" (.invalid "bad schema")] =
      .ok [⟨"c", none, some "Failed to parse response for key c: bad schema"⟩]) := by
  refine ⟨?_, ?_, ?_⟩
  · exact C2_unknown_id_aborts_decode.2.1 [("a", sampleReq "a")] "b" "B" [] (by rfl)
  · exact C2_unknown_id_aborts_decode.2.2.1 [("a", sampleReq "a")] "zz" "boom"
      [.responseRow "a" (.valid "A")] [⟨"a", some ⟨"A", false⟩, none⟩] (by rfl)
  · exact C2_unknown_id_aborts_decode.2.2.2 [("a", sampleReq "a")] "c" "bad schema" [] [] (by rfl)

/-- Consuming `k` rate-limit replies adds `k` backoff sleeps and leaves the
OpenAI loop running on the remaining trace. -/
theorem openaiSingleLoop_rateLimit_run (req : APIRequest) :
    ∀ (k : Nat) (rest : List OpenAIReply) (s : Nat),
      openaiSingleLoop req (List.replicate k .rateLimit ++ rest) s =
        openaiSingleLoop req rest (s + k) := by
  intro k
  induction k with
  | zero => intro rest s; simp
  | succ n ih =>
    intro rest s
    rw [List.replicate_succ, List.cons_append]
    show openaiSingleLoop req (List.replicate n .rateLimit ++ rest) (s + 1) = _
    rw [ih rest (s + 1)]
    congr 1
    omega

/-- Consuming a run of `APIError` replies performs one sleep per code-503
error, none for any other code, and leaves the Google loop running. -/
theorem googleSingleLoop_apiErr_run (req : APIRequest) :
    ∀ (errs : List GoogleReply), (∀ e ∈ errs, e.isApiErr = true) →
      ∀ (rest : List GoogleReply) (s : Nat),
        googleSingleLoop req (errs ++ rest) s =
          googleSingleLoop req rest (s + count503 errs) := by
  intro errs
  induction errs with
  | nil => intro _ rest s; simp [count503]
  | cons e t ih =>
    intro h rest s
    have ht : ∀ x ∈ t, x.isApiErr = true := fun x hx => h x (List.mem_cons_of_mem e hx)
    cases e with
    | success b => exact absurd (h _ (List.mem_cons_self _ _)) (by simp [GoogleReply.isApiErr])
    | otherExc m => exact absurd (h _ (List.mem_cons_self _ _)) (by simp [GoogleReply.isApiErr])
    | apiError c m =>
      rw [List.cons_append]
      show (if (c == 503) = true then googleSingleLoop req (t ++ rest) (s + 1)
            else googleSingleLoop req (t ++ rest) s) = _
      by_cases hc : (c == 503) = true
      · rw [if_pos hc, ih ht rest (s + 1)]
        have : count503 (GoogleReply.apiError c m :: t) = count503 t + 1 := by
          simp [count503, List.countP_cons, hc]
        rw [this]
        congr 1
        omega
      · rw [if_neg hc, ih ht rest s]
        have : count503 (GoogleReply.apiError c m :: t) = count503 t := by
          simp [count503, List.countP_cons, hc]
        rw [this]

/-- Counterexample to claim C5 as stated: for the Google adapter, a provider
`APIError` with code 400 — not the retried 503 signal — is neither captured
as `Output.error` nor propagated: the loop silently retries without
sleeping, and here the second call's success is returned as a success Output
after 0 sleeps. -/
theorem C5_counterexample :
    googleProcessSingleRequest (sampleReq "g") [.apiError 400 "boom", .success "B"] =
      some (0, ⟨"g", some ⟨"B", false⟩, none⟩) := by rfl

/-- Claim C5 amended: OpenAI — `RateLimitError` replies each cause one
backoff sleep and a retry, indefinitely, and any other provider `APIError`
is captured as `Output.error` and returned normally.  Ollama — there is no
rate-limit handling at all: every exception is captured as `Output.error`
with no retry.  Google — an `APIError` with code 503 causes one backoff
sleep and a retry, an `APIError` with any other code is retried immediately
with no sleep and no error capture (so a trace of only `APIError`s never
returns), and only non-`APIError` exceptions are captured as
`Output.error`. -/
theorem C5_single_request_error_routing :
    (∀ (req : APIRequest) (k : Nat) (m : String) (rest : List OpenAIReply),
        openaiProcessSingleRequest req (List.replicate k .rateLimit ++ .apiError m :: rest) =
          some (k, ⟨req.custom_id, none, some m⟩)) ∧
    (∀ (req : APIRequest) (k : Nat) (b : String) (rest : List OpenAIReply),
        openaiProcessSingleRequest req (List.replicate k .rateLimit ++ .success b :: rest) =
          some (k, ⟨req.custom_id, some ⟨b, req.body.structured⟩, none⟩)) ∧
    (∀ (req : APIRequest) (k : Nat),
        openaiProcessSingleRequest req (List.replicate k .rateLimit) = none) ∧
    (∀ (req : APIRequest) (m : String),
        ollamaProcessSingleRequest req (.exc m) = ⟨req.custom_id, none, some m⟩) ∧
    (∀ (req : APIRequest) (cfg : Option (List (String × GConfigVal)))
        (errs : List GoogleReply) (b : String) (rest : List GoogleReply),
        get_config req = .ok cfg → (∀ e ∈ errs, e.isApiErr = true) →
        googleProcessSingleRequest req (errs ++ .success b :: rest) =
          some (count503 errs, ⟨req.custom_id, some ⟨b, req.body.structured⟩, none⟩)) ∧
    (∀ (req : APIRequest) (cfg : Option (List (String × GConfigVal)))
        (errs : List GoogleReply) (m : String) (rest : List GoogleReply),
        get_config req = .ok cfg → (∀ e ∈ errs, e.isApiErr = true) →
        googleProcessSingleRequest req (errs ++ .otherExc m :: rest) =
          some (count503 errs, ⟨req.custom_id, none, some m⟩)) ∧
    (∀ (req : APIRequest) (cfg : Option (List (String × GConfigVal)))
        (errs : List GoogleReply),
        get_config req = .ok cfg → (∀ e ∈ errs, e.isApiErr = true) →
        googleProcessSingleRequest req errs = none) := by
  refine ⟨?_, ?_, ?_, ?_, ?_, ?_, ?_⟩
  · intro req k m rest
    unfold openaiProcessSingleRequest
    rw [openaiSingleLoop_rateLimit_run req k (.apiError m :: rest) 0, Nat.zero_add]
    rfl
  · intro req k b rest
    unfold openaiProcessSingleRequest
    rw [openaiSingleLoop_rateLimit_run req k (.success b :: rest) 0, Nat.zero_add]
    rfl
  · intro req k
    unfold openaiProcessSingleRequest
    rw [show (List.replicate k OpenAIReply.rateLimit : List OpenAIReply) =
          List.replicate k .rateLimit ++ [] by simp,
        openaiSingleLoop_rateLimit_run req k [] 0]
    rfl
  · intro req m
    rfl
  · intro req cfg errs b rest hcfg herrs
    unfold googleProcessSingleRequest
    rw [hcfg]
    rw [googleSingleLoop_apiErr_run req errs herrs (.success b :: rest) 0, Nat.zero_add]
    rfl
  · intro req cfg errs m rest hcfg herrs
    unfold googleProcessSingleRequest
    rw [hcfg]
    rw [googleSingleLoop_apiErr_run req errs herrs (.otherExc m :: rest) 0, Nat.zero_add]
    rfl
  · intro req cfg errs hcfg herrs
    unfold googleProcessSingleRequest
    rw [hcfg]
    rw [show errs = errs ++ [] by simp,
        googleSingleLoop_apiErr_run req errs herrs [] 0]
    rfl

/-- Witness for amended C5: every conjunct applied at a concrete input. -/
theorem C5_single_request_error_routing_witness :
    (openaiProcessSingleRequest (sampleReq "a") [.rateLimit, .rateLimit, .apiError "boom"] =
      some (2, ⟨"a", none, some "boom"⟩)) ∧
    (openaiProcessSingleRequest (sampleReq "a") [.success "B"] =
      some (0, ⟨"a", some ⟨"B", false⟩, none⟩)) ∧
    (openaiProcessSingleRequest (sampleReq "a") [.rateLimit] = none) ∧
    (ollamaProcessSingleRequest (sampleReq "o") (.exc "down") = ⟨"o", none, some "down"⟩) ∧
    (googleProcessSingleRequest (sampleReq "g") [.apiError 400 "x", .success "B"] =
      some (0, ⟨"g", some ⟨"B", false⟩, none⟩)) ∧
    (googleProcessSingleRequest (sampleReq "g") [.apiError 503 "busy", .otherExc "bad"] =
      some (1, ⟨"g", none, some "bad"⟩)) ∧
    (googleProcessSingleRequest (sampleReq "g") [.apiError 400 "x", .apiError 503 "y"] = none) := by
  refine ⟨?_, ?_, ?_, ?_, ?_, ?_, ?_⟩
  · exact C5_single_request_error_routing.1 (sampleReq "a") 2 "boom" []
  · exact C5_single_request_error_routing.2.1 (sampleReq "a") 0 "B" []
  · exact C5_single_request_error_routing.2.2.1 (sampleReq "a") 1
  · exact C5_single_request_error_routing.2.2.2.1 (sampleReq "o") "down"
  · exact C5_single_request_error_routing.2.2.2.2.1 (sampleReq "g") none
      [.apiError 400 "x"] "B" [] (by rfl) (by decide)
  · exact C5_single_request_error_routing.2.2.2.2.2.1 (sampleReq "g") none
      [.apiError 503 "busy"] "bad" [] (by rfl) (by decide)
  · exact C5_single_request_error_routing.2.2.2.2.2.2 (sampleReq "g") none
      [.apiError 400 "x", .apiError 503 "y"] (by rfl) (by decide)

/-- `outputsOf` distributes over trace concatenation. -/
theorem outputsOf_append :
    ∀ (a b : List DrvEvent), outputsOf (a ++ b) = outputsOf a ++ outputsOf b := by
  intro a
  induction a with
  | nil => intro b; rfl
  | cons e t ih =>
    intro b
    cases e with
    | sleep => simpa [outputsOf] using ih b
    | out o => simpa [outputsOf] using ih b

/-- The optional pacing-sleep prefix yields no outputs. -/
theorem outputsOf_pacing (c : Prop) [Decidable c] :
    outputsOf (if c then [DrvEvent.sleep] else []) = [] := by
  by_cases h : c
  · rw [if_pos h]; rfl
  · rw [if_neg h]; rfl

/-- When the driver's enumerate index is already positive and pacing is on,
any nonempty continuation trace begins with a sleep. -/
theorem processRequestFileGo_first_sleep (f : APIRequest → APIOutput) (interval : Nat)
    (skip : Option (List String)) :
    ∀ (lines : List SourceLine) (i : Nat), 0 < i → 0 < interval →
      (processRequestFileGo f interval skip i lines).1 ≠ [] →
      (processRequestFileGo f interval skip i lines).1.head? = some .sleep := by
  intro lines
  induction lines with
  | nil => intro i hi hint hne; simp [processRequestFileGo] at hne
  | cons l rest ih =>
    intro i hi hint hne
    cases l with
    | malformed m => simp [processRequestFileGo] at hne
    | ok r =>
      by_cases hs : inSkip skip r.custom_id = true
      · simp only [processRequestFileGo, hs, if_true] at hne ⊢
        exact ih (i + 1) (Nat.succ_pos i) hint hne
      · simp only [processRequestFileGo, if_neg hs] at hne ⊢
        rw [if_pos ⟨hi, hint⟩] at hne ⊢
        rfl

/-- With pacing disabled (`interval = 0`) the driver never sleeps. -/
theorem processRequestFileGo_no_sleep_of_zero (f : APIRequest → APIOutput)
    (skip : Option (List String)) :
    ∀ (lines : List SourceLine) (i : Nat),
      DrvEvent.sleep ∉ (processRequestFileGo f 0 skip i lines).1 := by
  intro lines
  induction lines with
  | nil => intro i; simp [processRequestFileGo]
  | cons l rest ih =>
    intro i
    cases l with
    | malformed m => simp [processRequestFileGo]
    | ok r =>
      by_cases hs : inSkip skip r.custom_id = true
      · simp only [processRequestFileGo, hs, if_true]
        exact ih (i + 1)
      · simp only [processRequestFileGo, if_neg hs]
        rw [if_neg (by omega : ¬(0 < i ∧ 0 < 0))]
        intro hmem
        simp only [List.nil_append, List.mem_cons] at hmem
        rcases hmem with h0 | h0
        · exact DrvEvent.noConfusion h0
        · exact ih (i + 1) h0

/-- Closed form of the driver's event trace over well-formed records: each
record at enumerate index `j` contributes nothing when skipped, and otherwise
contributes its output preceded by exactly one pacing sleep iff `j` is
positive and the interval is positive.  (A malformed record cuts the trace to
that of the well-formed prefix — `processRequestFileGo_halts_at_malformed` —
so this determines the trace shape in general.) -/
theorem processRequestFileGo_events_closed_form (f : APIRequest → APIOutput)
    (interval : Nat) (skip : Option (List String)) :
    ∀ (src : List APIRequest) (i : Nat),
      (processRequestFileGo f interval skip i (src.map .ok)).1 =
        (List.enumFrom i src).flatMap (fun p =>
          if inSkip skip p.2.custom_id then []
          else (if 0 < p.1 ∧ 0 < interval then [DrvEvent.sleep] else []) ++
            [DrvEvent.out (f p.2)]) := by
  intro src
  induction src with
  | nil => intro i; rfl
  | cons r t ih =>
    intro i
    simp only [List.map_cons, List.enumFrom, List.flatMap_cons]
    by_cases hs : inSkip skip r.custom_id = true
    · simp only [processRequestFileGo, hs, if_true]
      rw [ih (i + 1)]
      simp
    · simp only [processRequestFileGo, if_neg hs]
      rw [ih (i + 1)]
      simp [List.append_assoc]

/-- Counterexample to claim C6 as stated: with pacing interval 1 and skip set
`{"a"}` over the source `[a, b]`, the skipped first record still advances the
enumerate index, so a pacing sleep occurs before the first (and only)
yielded Output — the claim said no sleep ever precedes the first processed
item. -/
theorem C6_counterexample :
    process_request_file (fun r => ollamaProcessSingleRequest r (.exc "x")) 1 (some ["a"])
        [.ok (sampleReq "a"), .ok (sampleReq "b")] =
      ([.sleep, .out ⟨"b", none, some "x"⟩], none) := by rfl

/-- Claim C6 amended: the pacing delay is inserted before every processed
item whose source (enumerate) index is positive, skipped records included in
the count.  The first conjunct is the full insertion rule: the trace is the
concatenation, over the enumerated source, of nothing for a skipped record
and of the record's output preceded by exactly one sleep iff its enumerate
index and the interval are positive — so a sleep sits between consecutive
processed items always, and before the first processed item exactly when an
earlier record was skipped.  The remaining conjuncts spell out the head
cases: no sleep precedes the first yielded Output when the source's first
record is itself processed; when the first record is skipped (and pacing is
on) a sleep does precede the first yielded Output; and no sleep ever occurs
when the configured interval is 0. -/
theorem C6_pacing_insertion :
    (∀ (f : APIRequest → APIOutput) (interval : Nat) (skip : Option (List String))
        (src : List APIRequest),
        (process_request_file f interval skip (src.map .ok)).1 =
          src.enum.flatMap (fun p =>
            if inSkip skip p.2.custom_id then []
            else (if 0 < p.1 ∧ 0 < interval then [DrvEvent.sleep] else []) ++
              [DrvEvent.out (f p.2)])) ∧
    (∀ (f : APIRequest → APIOutput) (interval : Nat) (skip : Option (List String))
        (r : APIRequest) (rest : List SourceLine),
        inSkip skip r.custom_id = false →
        (process_request_file f interval skip (.ok r :: rest)).1.head? =
          some (.out (f r))) ∧
    (∀ (f : APIRequest → APIOutput) (interval : Nat) (skip : Option (List String))
        (r : APIRequest) (rest : List SourceLine),
        0 < interval → inSkip skip r.custom_id = true →
        (process_request_file f interval skip (.ok r :: rest)).1 ≠ [] →
        (process_request_file f interval skip (.ok r :: rest)).1.head? = some .sleep) ∧
    (∀ (f : APIRequest → APIOutput) (skip : Option (List String)) (lines : List SourceLine),
        DrvEvent.sleep ∉ (process_request_file f 0 skip lines).1) := by
  refine ⟨?_, ?_, ?_, ?_⟩
  · intro f interval skip src
    exact processRequestFileGo_events_closed_form f interval skip src 0
  · intro f interval skip r rest h
    simp only [process_request_file, processRequestFileGo]
    rw [if_neg (show ¬(inSkip skip r.custom_id = true) by simp [h])]
    rw [if_neg (by omega : ¬(0 < 0 ∧ 0 < interval))]
    rfl
  · intro f interval skip r rest hint hs hne
    simp only [process_request_file, processRequestFileGo, hs, if_true] at hne ⊢
    exact processRequestFileGo_first_sleep f interval skip rest 1 Nat.one_pos hint hne
  · intro f skip lines
    exact processRequestFileGo_no_sleep_of_zero f skip lines 0

/-- Witness for amended C6: the full insertion rule evaluated on a
three-record source with the first record skipped (sleep before every later
processed item, none contributed by the skipped one); with an unskipped
first record the trace starts with its output; with the first record skipped
and pacing on, the trace starts with a sleep; with interval 0 there is no
sleep. -/
theorem C6_pacing_insertion_witness :
    ((process_request_file (fun r => ollamaProcessSingleRequest r (.exc "x")) 1 (some ["a"])
        [.ok (sampleReq "a"), .ok (sampleReq "b"), .ok (sampleReq "c")]).1 =
      ([(0, sampleReq "a"), (1, sampleReq "b"), (2, sampleReq "c")] :
          List (Nat × APIRequest)).flatMap (fun p =>
        if inSkip (some ["a"]) p.2.custom_id then []
        else (if 0 < p.1 ∧ 0 < (1 : Nat) then [DrvEvent.sleep] else []) ++
          [DrvEvent.out (ollamaProcessSingleRequest p.2 (.exc "x"))])) ∧
    ((process_request_file (fun r => ollamaProcessSingleRequest r (.exc "x")) 1 (some ["a"])
        [.ok (sampleReq "a"), .ok (sampleReq "b"), .ok (sampleReq "c")]).1 =
      [.sleep, .out ⟨"b", none, some "x"⟩, .sleep, .out ⟨"c", none, some "x"⟩]) ∧
    ((process_request_file (fun r => ollamaProcessSingleRequest r (.exc "x")) 1 none
        [.ok (sampleReq "a")]).1.head? = some (.out ⟨"a", none, some "x"⟩)) ∧
    ((process_request_file (fun r => ollamaProcessSingleRequest r (.exc "x")) 1 (some ["a"])
        [.ok (sampleReq "a"), .ok (sampleReq "b")]).1.head? = some .sleep) ∧
    (DrvEvent.sleep ∉ (process_request_file (fun r => ollamaProcessSingleRequest r (.exc "x")) 0
        (some ["a"]) [.ok (sampleReq "a"), .ok (sampleReq "b")]).1) := by
  refine ⟨?_, ?_, ?_, ?_, ?_⟩
  · exact C6_pacing_insertion.1 (fun r => ollamaProcessSingleRequest r (.exc "x")) 1
      (some ["a"]) [sampleReq "a", sampleReq "b", sampleReq "c"]
  · rfl
  · exact C6_pacing_insertion.2.1 (fun r => ollamaProcessSingleRequest r (.exc "x")) 1 none
      (sampleReq "a") [] (by rfl)
  · exact C6_pacing_insertion.2.2.1 (fun r => ollamaProcessSingleRequest r (.exc "x")) 1
      (some ["a"]) (sampleReq "a") [.ok (sampleReq "b")] Nat.one_pos (by rfl) (by decide)
  · exact C6_pacing_insertion.2.2.2 (fun r => ollamaProcessSingleRequest r (.exc "x"))
      (some ["a"]) [.ok (sampleReq "a"), .ok (sampleReq "b")]

/-- With no skip set, the driver yields one output per well-formed record,
in source order, whatever the per-item results are, and ends without
error. -/
theorem processRequestFileGo_no_skip (f : APIRequest → APIOutput) (interval : Nat) :
    ∀ (src : List APIRequest) (i : Nat),
      outputsOf (processRequestFileGo f interval none i (src.map .ok)).1 = src.map f ∧
      (processRequestFileGo f interval none i (src.map .ok)).2 = none := by
  intro src
  induction src with
  | nil => intro i; exact ⟨rfl, rfl⟩
  | cons r t ih =>
    intro i
    constructor
    · simp only [List.map_cons, processRequestFileGo]
      rw [if_neg (show ¬(inSkip none r.custom_id = true) by simp [inSkip])]
      rw [outputsOf_append, outputsOf_pacing]
      simp only [List.nil_append, outputsOf]
      rw [(ih (i + 1)).1]
    · simp only [List.map_cons, processRequestFileGo]
      rw [if_neg (show ¬(inSkip none r.custom_id = true) by simp [inSkip])]
      exact (ih (i + 1)).2

/-- When the per-item call preserves `custom_id`, no yielded output carries a
skipped id. -/
theorem processRequestFileGo_skip_excluded (f : APIRequest → APIOutput) (interval : Nat)
    (sk : List String) (hf : ∀ r, (f r).custom_id = r.custom_id) :
    ∀ (lines : List SourceLine) (i : Nat) (o : APIOutput),
      o ∈ outputsOf (processRequestFileGo f interval (some sk) i lines).1 →
      o.custom_id ∉ sk := by
  intro lines
  induction lines with
  | nil => intro i o ho; simp [processRequestFileGo, outputsOf] at ho
  | cons l rest ih =>
    intro i o ho
    cases l with
    | malformed m => simp [processRequestFileGo, outputsOf] at ho
    | ok r =>
      by_cases hs : inSkip (some sk) r.custom_id = true
      · simp only [processRequestFileGo, hs, if_true] at ho
        exact ih (i + 1) o ho
      · simp only [processRequestFileGo, if_neg hs] at ho
        rw [outputsOf_append, outputsOf_pacing] at ho
        simp only [List.nil_append, outputsOf, List.mem_cons] at ho
        rcases ho with h0 | h0
        · subst h0
          rw [hf r]
          intro hmem
          exact hs (by simpa [inSkip] using List.elem_iff.mpr hmem)
        · exact ih (i + 1) o h0

/-- A malformed record halts iteration exactly there: the trace is the trace
of the well-formed prefix, and the parse error is raised; records after the
malformed one are never touched. -/
theorem processRequestFileGo_halts_at_malformed (f : APIRequest → APIOutput)
    (interval : Nat) (skip : Option (List String)) (m : String) (rest : List SourceLine) :
    ∀ (src : List APIRequest) (i : Nat),
      (processRequestFileGo f interval skip i (src.map .ok ++ .malformed m :: rest)).1 =
        (processRequestFileGo f interval skip i (src.map .ok)).1 ∧
      (processRequestFileGo f interval skip i (src.map .ok ++ .malformed m :: rest)).2 =
        some ⟨false, m⟩ := by
  intro src
  induction src with
  | nil => intro i; exact ⟨rfl, rfl⟩
  | cons r t ih =>
    intro i
    by_cases hs : inSkip skip r.custom_id = true
    · constructor
      · simp only [List.map_cons, List.cons_append, processRequestFileGo, hs, if_true]
        exact (ih (i + 1)).1
      · simp only [List.map_cons, List.cons_append, processRequestFileGo, hs, if_true]
        exact (ih (i + 1)).2
    · constructor
      · simp only [List.map_cons, List.cons_append, processRequestFileGo, if_neg hs,
          List.append_eq]
        rw [(ih (i + 1)).1]
      · simp only [List.map_cons, List.cons_append, processRequestFileGo, if_neg hs]
        exact (ih (i + 1)).2

/-- Claim C7: over N well-formed requests with no skip set the driver yields
exactly N outputs in source order, whatever each item's provider outcome is;
with a skip set no output carries a skipped id (given that the per-item call
mirrors the request's `custom_id`, as every adapter does); and only a
malformed source record halts iteration, doing so immediately. -/
theorem C7_driver_yields_all_in_order :
    (∀ (f : APIRequest → APIOutput) (interval : Nat) (src : List APIRequest),
        outputsOf (process_request_file f interval none (src.map .ok)).1 = src.map f ∧
        (outputsOf (process_request_file f interval none (src.map .ok)).1).length =
          src.length ∧
        (process_request_file f interval none (src.map .ok)).2 = none) ∧
    (∀ (f : APIRequest → APIOutput) (interval : Nat) (sk : List String)
        (lines : List SourceLine) (o : APIOutput),
        (∀ r, (f r).custom_id = r.custom_id) →
        o ∈ outputsOf (process_request_file f interval (some sk) lines).1 →
        o.custom_id ∉ sk) ∧
    (∀ (f : APIRequest → APIOutput) (interval : Nat) (skip : Option (List String))
        (src : List APIRequest) (m : String) (rest : List SourceLine),
        (process_request_file f interval skip (src.map .ok ++ .malformed m :: rest)).1 =
          (process_request_file f interval skip (src.map .ok)).1 ∧
        (process_request_file f interval skip (src.map .ok ++ .malformed m :: rest)).2 =
          some ⟨false, m⟩) := by
  refine ⟨?_, ?_, ?_⟩
  · intro f interval src
    obtain ⟨h1, h2⟩ := processRequestFileGo_no_skip f interval src 0
    refine ⟨h1, ?_, h2⟩
    simp only [process_request_file]
    rw [h1]
    simp
  · intro f interval sk lines o hf ho
    exact processRequestFileGo_skip_excluded f interval sk hf lines 0 o ho
  · intro f interval skip src m rest
    exact processRequestFileGo_halts_at_malformed f interval skip m rest src 0

/-- Witness for C7: a two-request source yields both outputs in order with no
error; a skipped id never appears; a malformed second line halts with the
parse error after the first output. -/
theorem C7_driver_yields_all_in_order_witness :
    (outputsOf (process_request_file (fun r => ollamaProcessSingleRequest r (.exc "e")) 1 none
        [.ok (sampleReq "a"), .ok (sampleReq "b")]).1 =
      [⟨"a", none, some "e"⟩, ⟨"b", none, some "e"⟩]) ∧
    ((⟨"b", none, some "e"⟩ : APIOutput).custom_id ∉ (["a"] : List String)) ∧
    ((process_request_file (fun r => ollamaProcessSingleRequest r (.exc "e")) 1 none
        [.ok (sampleReq "a"), .malformed "bad json"]).2 = some ⟨false, "bad json"⟩) := by
  refine ⟨?_, ?_, ?_⟩
  · exact (C7_driver_yields_all_in_order.1 (fun r => ollamaProcessSingleRequest r (.exc "e")) 1
      [sampleReq "a", sampleReq "b"]).1
  · exact C7_driver_yields_all_in_order.2.1 (fun r => ollamaProcessSingleRequest r (.exc "e")) 1
      ["a"] [.ok (sampleReq "a"), .ok (sampleReq "b")] ⟨"b", none, some "e"⟩
      (fun r => rfl) (by decide)
  · exact (C7_driver_yields_all_in_order.2.2 (fun r => ollamaProcessSingleRequest r (.exc "e")) 1
      none [sampleReq "a"] "bad json" []).2

/-- After any run of non-terminal statuses (one poll sleep each), a terminal
failure status makes the OpenAI wait raise the `APIError` naming it. -/
theorem openaiWaitGo_terminal_failure (art : List OpenAIResultLine) :
    ∀ (pre : List String),
      (∀ s ∈ pre, s ≠ "completed" ∧ terminalFailStatuses.contains s = false) →
      ∀ (st : String) (rest : List String) (sl : Nat),
        terminalFailStatuses.contains st = true →
        openaiWaitGo art (pre ++ st :: rest) sl =
          some (sl + pre.length,
            .error ⟨true, "Batch request failed with status: " ++ st⟩) := by
  intro pre
  induction pre with
  | nil =>
    intro _ st rest sl hst
    have h3 : st = "failed" ∨ st = "canceled" ∨ st = "expired" := by
      have := List.elem_iff.mp hst
      simpa [terminalFailStatuses] using this
    rcases h3 with rfl | rfl | rfl <;>
      · simp only [List.nil_append, openaiWaitGo]
        rw [if_neg (by decide), if_pos (by decide)]
        simp
  | cons s t ih =>
    intro h st rest sl hst
    have hs1 : s ≠ "completed" := (h s (by simp)).1
    have hs2 : terminalFailStatuses.contains s = false := (h s (by simp)).2
    simp only [List.cons_append, openaiWaitGo]
    rw [if_neg (show ¬((s == "completed") = true) by simpa using hs1)]
    rw [if_neg (show ¬(terminalFailStatuses.contains s = true) by
      rw [hs2]; exact Bool.false_ne_true)]
    rw [List.append_eq, ih (fun x hx => h x (by simp [hx])) st rest (sl + 1) hst]
    simp only [List.length_cons, Option.some.injEq, Prod.mk.injEq]
    exact ⟨by omega, trivial⟩

/-- After any run of non-terminal states, a terminal non-succeeded state
makes the Google wait raise the `APIError` naming it. -/
theorem googleWaitGo_terminal_failure (hasDest : Bool) (art : List GoogleResultLine) :
    ∀ (pre : List String),
      (∀ s ∈ pre, googleCompletedStates.contains s = false) →
      ∀ (st : String) (rest : List String) (sl : Nat),
        (st = "JOB_STATE_FAILED" ∨ st = "JOB_STATE_CANCELLED" ∨ st = "JOB_STATE_EXPIRED") →
        googleWaitGo hasDest art (pre ++ st :: rest) sl =
          some (sl + pre.length,
            .error ⟨true, "Batch request failed with state: " ++ st⟩) := by
  intro pre
  induction pre with
  | nil =>
    intro _ st rest sl hst
    rcases hst with rfl | rfl | rfl <;>
      · simp only [List.nil_append, googleWaitGo]
        rw [if_pos (by decide), if_neg (by decide)]
        simp
  | cons s t ih =>
    intro h st rest sl hst
    have hs : googleCompletedStates.contains s = false := h s (by simp)
    simp only [List.cons_append, googleWaitGo]
    rw [if_neg (show ¬(googleCompletedStates.contains s = true) by
      rw [hs]; exact Bool.false_ne_true)]
    rw [List.append_eq, ih (fun x hx => h x (by simp [hx])) st rest (sl + 1) hst]
    simp only [List.length_cons, Option.some.injEq, Prod.mk.injEq]
    exact ⟨by omega, trivial⟩

/-- The terminal-failure message never contains the quota phrase, so the
batch loop's `except APIError` clause re-raises it instead of retrying. -/
theorem openai_terminal_msg_not_quota (st : String)
    (hst : terminalFailStatuses.contains st = true) :
    isQuotaError ⟨true, "Batch request failed with status: " ++ st⟩ = false := by
  have h3 : st = "failed" ∨ st = "canceled" ∨ st = "expired" := by
    have := List.elem_iff.mp hst
    simpa [terminalFailStatuses] using this
  rcases h3 with rfl | rfl | rfl <;> decide

/-- Google variant of `openai_terminal_msg_not_quota`. -/
theorem google_terminal_msg_not_quota (st : String)
    (hst : st = "JOB_STATE_FAILED" ∨ st = "JOB_STATE_CANCELLED" ∨ st = "JOB_STATE_EXPIRED") :
    isQuotaError ⟨true, "Batch request failed with state: " ++ st⟩ = false := by
  rcases hst with rfl | rfl | rfl <;> decide

/-- Claim C8: a batch job reaching a non-succeeded terminal state (failed,
canceled/cancelled, expired) makes `wait_for_batch_request` raise an
`APIError` whose message names that state, and `batch_request_and_wait` does
not retry it: the error propagates after exactly one submit attempt. -/
theorem C8_terminal_state_fatal :
    (∀ (art : List OpenAIResultLine) (pre : List String),
        (∀ s ∈ pre, s ≠ "completed" ∧ terminalFailStatuses.contains s = false) →
        ∀ (st : String) (rest : List String),
          terminalFailStatuses.contains st = true →
          openaiWaitGo art (pre ++ st :: rest) 0 =
            some (pre.length,
              .error ⟨true, "Batch request failed with status: " ++ st⟩)) ∧
    (∀ (hasDest : Bool) (art : List GoogleResultLine) (pre : List String),
        (∀ s ∈ pre, googleCompletedStates.contains s = false) →
        ∀ (st : String) (rest : List String),
          (st = "JOB_STATE_FAILED" ∨ st = "JOB_STATE_CANCELLED" ∨ st = "JOB_STATE_EXPIRED") →
          googleWaitGo hasDest art (pre ++ st :: rest) 0 =
            some (pre.length,
              .error ⟨true, "Batch request failed with state: " ++ st⟩)) ∧
    (∀ (lines : List SourceLine) (idx : Index) (p : List String)
        (a : List OpenAIResultLine) (st : String) (rest : List OpenAIAttempt) (ns : Nat),
        read_batch_file lines = .ok idx →
        terminalFailStatuses.contains st = true →
        openaiWaitGo a p 0 =
          some (ns, .error ⟨true, "Batch request failed with status: " ++ st⟩) →
        openai_batch_request_and_wait lines (⟨.ok (), p, a⟩ :: rest) =
          some (.error ⟨true, "Batch request failed with status: " ++ st⟩, ⟨1, 1, ns⟩)) ∧
    (∀ (lines : List SourceLine) (idx : Index) (items : List GoogleBatchItem)
        (p : List String) (d : Bool) (a : List GoogleResultLine) (st : String)
        (rest : List GoogleAttempt) (ns : Nat),
        read_batch_file lines = .ok idx →
        google_convert_batch_file lines = .ok items →
        (st = "JOB_STATE_FAILED" ∨ st = "JOB_STATE_CANCELLED" ∨ st = "JOB_STATE_EXPIRED") →
        googleWaitGo d a p 0 =
          some (ns, .error ⟨true, "Batch request failed with state: " ++ st⟩) →
        google_batch_request_and_wait lines (⟨.ok (), p, d, a⟩ :: rest) =
          some (.error ⟨true, "Batch request failed with state: " ++ st⟩, ⟨1, 1, ns⟩)) := by
  refine ⟨?_, ?_, ?_, ?_⟩
  · intro art pre hpre st rest hst
    rw [openaiWaitGo_terminal_failure art pre hpre st rest 0 hst, Nat.zero_add]
  · intro hasDest art pre hpre st rest hst
    rw [googleWaitGo_terminal_failure hasDest art pre hpre st rest 0 hst, Nat.zero_add]
  · intro lines idx p a st rest ns hread hst hw
    unfold openai_batch_request_and_wait
    simp only [openaiBatchLoopGo, hread, hw]
    rw [if_neg (show ¬(isQuotaError
        ⟨true, "Batch request failed with status: " ++ st⟩ = true) by
      rw [openai_terminal_msg_not_quota st hst]; exact Bool.false_ne_true)]
    simp
  · intro lines idx items p d a st rest ns hread hconv hst hw
    unfold google_batch_request_and_wait
    simp only [googleBatchLoopGo, hread, hconv, hw]
    rw [if_neg (show ¬(isQuotaError
        ⟨true, "Batch request failed with state: " ++ st⟩ = true) by
      rw [google_terminal_msg_not_quota st hst]; exact Bool.false_ne_true)]
    simp

/-- Witness for C8: a poll sequence ending in `"failed"` raises the error
naming `"failed"` and the loop propagates it after one submit attempt (for
Google, `JOB_STATE_FAILED`). -/
theorem C8_terminal_state_fatal_witness :
    (openaiWaitGo [] (["validating"] ++ "failed" :: []) 0 =
      some (1, .error ⟨true, "Batch request failed with status: " ++ "failed"⟩)) ∧
    (googleWaitGo true [] (["JOB_STATE_RUNNING"] ++ "JOB_STATE_FAILED" :: []) 0 =
      some (1, .error ⟨true, "Batch request failed with state: " ++ "JOB_STATE_FAILED"⟩)) ∧
    (openai_batch_request_and_wait [.ok (sampleReq "a")] [⟨.ok (), ["failed"], []⟩] =
      some (.error ⟨true, "Batch request failed with status: " ++ "failed"⟩, ⟨1, 1, 0⟩)) ∧
    (google_batch_request_and_wait [.ok (sampleReq "a")]
        [⟨.ok (), ["JOB_STATE_FAILED"], true, []⟩] =
      some (.error ⟨true, "Batch request failed with state: " ++ "JOB_STATE_FAILED"⟩,
        ⟨1, 1, 0⟩)) := by
  refine ⟨?_, ?_, ?_, ?_⟩
  · exact C8_terminal_state_fatal.1 [] ["validating"] (by decide) "failed" [] (by decide)
  · exact C8_terminal_state_fatal.2.1 true [] ["JOB_STATE_RUNNING"] (by decide)
      "JOB_STATE_FAILED" [] (by decide)
  · exact C8_terminal_state_fatal.2.2.1 [.ok (sampleReq "a")] [("a", sampleReq "a")]
      ["failed"] [] "failed" [] 0 (by rfl) (by decide) (by rfl)
  · exact C8_terminal_state_fatal.2.2.2 [.ok (sampleReq "a")] [("a", sampleReq "a")]
      [⟨"a", [], none, none⟩] ["JOB_STATE_FAILED"] true [] "JOB_STATE_FAILED" [] 0
      (by rfl) (by rfl) (by decide) (by rfl)

/-- Claim C9: a submission-time error that is not the quota-exhaustion
signal is fatal: `batch_request_and_wait` propagates it at once — one submit
attempt, no retry, no sleep. -/
theorem C9_nonquota_submission_fatal :
    (∀ (lines : List SourceLine) (idx : Index) (m : String) (p : List String)
        (a : List OpenAIResultLine) (rest : List OpenAIAttempt),
        read_batch_file lines = .ok idx →
        strContains m quotaPhrase = false →
        openai_batch_request_and_wait lines (⟨.error m, p, a⟩ :: rest) =
          some (.error ⟨true, m⟩, ⟨1, 1, 0⟩)) ∧
    (∀ (lines : List SourceLine) (idx : Index) (items : List GoogleBatchItem)
        (m : String) (p : List String) (d : Bool) (a : List GoogleResultLine)
        (rest : List GoogleAttempt),
        read_batch_file lines = .ok idx →
        google_convert_batch_file lines = .ok items →
        strContains m quotaPhrase = false →
        google_batch_request_and_wait lines (⟨.error m, p, d, a⟩ :: rest) =
          some (.error ⟨true, m⟩, ⟨1, 1, 0⟩)) := by
  constructor
  · intro lines idx m p a rest hread hq
    have hqf : isQuotaError ⟨true, m⟩ = false := by simp [isQuotaError, hq]
    unfold openai_batch_request_and_wait
    simp [openaiBatchLoopGo, hread, hqf]
  · intro lines idx items m p d a rest hread hconv hq
    have hqf : isQuotaError ⟨true, m⟩ = false := by simp [isQuotaError, hq]
    unfold google_batch_request_and_wait
    simp [googleBatchLoopGo, hread, hconv, hqf]

/-- Witness for C9: a concrete non-quota submission error propagates with
counters (1 build, 1 submit, 0 sleeps). -/
theorem C9_nonquota_submission_fatal_witness :
    (openai_batch_request_and_wait [.ok (sampleReq "a")]
        [⟨.error "invalid api key", ["completed"], []⟩] =
      some (.error ⟨true, "invalid api key"⟩, ⟨1, 1, 0⟩)) ∧
    (google_batch_request_and_wait [.ok (sampleReq "a")]
        [⟨.error "invalid api key", [], true, []⟩] =
      some (.error ⟨true, "invalid api key"⟩, ⟨1, 1, 0⟩)) := by
  constructor
  · exact C9_nonquota_submission_fatal.1 [.ok (sampleReq "a")] [("a", sampleReq "a")]
      "invalid api key" ["completed"] [] [] (by rfl) (by decide)
  · exact C9_nonquota_submission_fatal.2 [.ok (sampleReq "a")] [("a", sampleReq "a")]
      [⟨"a", [], none, none⟩] "invalid api key" [] true [] [] (by rfl) (by rfl) (by decide)

/-- A successful batch-file conversion implies every well-formed record's
config conversion succeeded: conversion cannot complete while any record
would raise in `get_config`. -/
theorem googleConvertGo_ok_config :
    ∀ (lines : List SourceLine) (fm : Option String) (items : List GoogleBatchItem),
      googleConvertGo fm lines = .ok items →
      ∀ r : APIRequest, .ok r ∈ lines → ∃ c, get_config r = .ok c := by
  intro lines
  induction lines with
  | nil => intro fm items h r hr; simp at hr
  | cons l rest ih =>
    intro fm items h r hr
    cases l with
    | malformed m => simp [googleConvertGo] at h
    | ok r0 =>
      simp only [googleConvertGo] at h
      cases hmc : googleModelCheck fm r0.body.model with
      | error e =>
        simp only [hmc] at h
        exact Except.noConfusion h
      | ok fm' =>
        simp only [hmc] at h
        cases hcfg : get_config r0 with
        | error cm =>
          simp only [hcfg] at h
          exact Except.noConfusion h
        | ok cfg =>
          simp only [hcfg] at h
          cases htail : googleConvertGo (some fm') rest with
          | error e =>
            simp only [htail] at h
            exact Except.noConfusion h
          | ok tail =>
            rcases List.mem_cons.mp hr with h0 | h0
            · have hrr : r = r0 := by injection h0
              subst hrr
              exact ⟨cfg, hcfg⟩
            · exact ih (some fm') tail htail r h0

/-- Counterexample to claim C10 as stated: `twoSystemReq` contains a system
message with two content parts, yet `get_config` (which only examines the
first system message) succeeds, the Google single-request path returns a
success Output, and batch-file conversion succeeds as well — nothing
raises. -/
theorem C10_counterexample :
    get_config twoSystemReq = .ok (some [("system_instruction", .contentVal "a")]) ∧
    googleProcessSingleRequest twoSystemReq [.success "B"] =
      some (0, ⟨"g", some ⟨"B", false⟩, none⟩) ∧
    google_convert_batch_file [.ok twoSystemReq] = .ok [⟨"g", [], some [], some "a"⟩] := by
  exact ⟨rfl, rfl, rfl⟩

/-- Claim C10 amended: for every request whose FIRST system message has more
than one content part, `get_config` raises the single-part `ValueError`;
consequently the Google single-request path captures exactly that message as
the item's `Output.error` (with no sleep and no provider call consumed), any
source containing such a request makes `convert_batch_file` raise, and a
conversion failure makes `batch_request_and_wait` propagate it after one
attempt — before any upload outcome is even consulted. -/
theorem C10_multipart_system_message :
    (∀ (req : APIRequest) (msg : Message),
        firstSystemMessage req = some msg → msg.parts.length > 1 →
        get_config req = .error sysMsgErr) ∧
    (∀ (req : APIRequest) (msg : Message) (replies : List GoogleReply),
        firstSystemMessage req = some msg → msg.parts.length > 1 →
        googleProcessSingleRequest req replies =
          some (0, ⟨req.custom_id, none, some sysMsgErr⟩)) ∧
    (∀ (lines : List SourceLine) (req : APIRequest) (msg : Message),
        .ok req ∈ lines → firstSystemMessage req = some msg → msg.parts.length > 1 →
        ∃ e, google_convert_batch_file lines = .error e) ∧
    (∀ (lines : List SourceLine) (idx : Index) (e : PyErr) (att : GoogleAttempt)
        (rest : List GoogleAttempt),
        read_batch_file lines = .ok idx →
        google_convert_batch_file lines = .error e →
        google_batch_request_and_wait lines (att :: rest) =
          some (.error e, ⟨1, 1, 0⟩)) := by
  have ha : ∀ (req : APIRequest) (msg : Message),
      firstSystemMessage req = some msg → msg.parts.length > 1 →
      get_config req = .error sysMsgErr := by
    intro req msg hfs hlen
    have h0 : getConfigSystemArgs req = .error sysMsgErr := by
      simp [getConfigSystemArgs, hfs, hlen]
    simp [get_config, h0]
  refine ⟨ha, ?_, ?_, ?_⟩
  · intro req msg replies hfs hlen
    unfold googleProcessSingleRequest
    rw [ha req msg hfs hlen]
  · intro lines req msg hmem hfs hlen
    cases h : google_convert_batch_file lines with
    | error e => exact ⟨e, rfl⟩
    | ok items =>
      obtain ⟨c, hc⟩ := googleConvertGo_ok_config lines none items h req hmem
      rw [ha req msg hfs hlen] at hc
      exact Except.noConfusion hc
  · intro lines idx e att rest hread hconv
    unfold google_batch_request_and_wait
    simp [googleBatchLoopGo, hread, hconv]

/-- Witness for amended C10: the two-part first system message of
`multiPartSysReq` yields the `ValueError` in `get_config`, an error Output
on the single path, a conversion failure for a source containing it, and a
fatal one-attempt batch run. -/
theorem C10_multipart_system_message_witness :
    (get_config multiPartSysReq = .error sysMsgErr) ∧
    (googleProcessSingleRequest multiPartSysReq [.success "B"] =
      some (0, ⟨"s", none, some sysMsgErr⟩)) ∧
    (∃ e, google_convert_batch_file [.ok multiPartSysReq] = .error e) ∧
    (google_batch_request_and_wait [.ok multiPartSysReq] [⟨.ok (), [], true, []⟩] =
      some (.error ⟨false, sysMsgErr⟩, ⟨1, 1, 0⟩)) := by
  refine ⟨?_, ?_, ?_, ?_⟩
  · exact C10_multipart_system_message.1 multiPartSysReq
      ⟨"system", [.text "x", .text "y"]⟩ (by rfl) (by decide)
  · exact C10_multipart_system_message.2.1 multiPartSysReq
      ⟨"system", [.text "x", .text "y"]⟩ [.success "B"] (by rfl) (by decide)
  · exact C10_multipart_system_message.2.2.1 [.ok multiPartSysReq] multiPartSysReq
      ⟨"system", [.text "x", .text "y"]⟩ (by simp) (by rfl) (by decide)
  · exact C10_multipart_system_message.2.2.2 [.ok multiPartSysReq]
      [("s", multiPartSysReq)] ⟨false, sysMsgErr⟩ ⟨.ok (), [], true, []⟩ []
      (by rfl) (by rfl)

end AICaller
